import Mathlib

/-!
Shallow embedding of the shape_calculator C++ fixture
(src/codegraph/test_fixtures/cpp/shape_calculator).  Doubles are embedded
as exact rationals, thrown std::invalid_argument exceptions as
Except String, and the driver as a function returning a structured run
result (exit code, report entries, optional total, optional stderr text).
-/

namespace ShapeCalc

namespace MathUtils

/-- The constant MathUtils::PI from utils/MathUtils.h line 5. -/
def PI : ℚ := 3.14159265358979323846

/-- The constant MathUtils::E from utils/MathUtils.h line 6. -/
def E : ℚ := 2.71828182845904523536

/-- MathUtils::square from utils/MathUtils.h lines 8-10. -/
def square (x : ℚ) : ℚ := x * x

/-- MathUtils::cube from utils/MathUtils.h lines 12-14. -/
def cube (x : ℚ) : ℚ := x * x * x

end MathUtils

/-- The Circle class state: the single stored field radius_
(shapes/Circle.h line 12). -/
structure Circle where
  radius_ : ℚ
deriving Repr, DecidableEq

namespace Circle

/-- The private constant Circle::PI (shapes/Circle.h line 13). -/
def PI : ℚ := 3.14159265358979323846

/-- Circle::validateRadius (Circle.cpp lines 5-9): throws
std::invalid_argument when r <= 0, otherwise returns normally. -/
def validateRadius (r : ℚ) : Except String Unit :=
  if r ≤ 0 then Except.error "Radius must be positive" else Except.ok ()

/-- The Circle constructor (Circle.cpp lines 10-12): stores the radius and
then validates it; a thrown exception means no usable instance is
produced, so the result is Except. -/
def construct (radius : ℚ) : Except String Circle :=
  match validateRadius radius with
  | Except.error e => Except.error e
  | Except.ok _ => Except.ok { radius_ := radius }

/-- Circle::area (Circle.cpp lines 20-22). -/
def area (c : Circle) : ℚ := PI * c.radius_ * c.radius_

/-- Circle::perimeter (Circle.cpp lines 24-26). -/
def perimeter (c : Circle) : ℚ := 2 * PI * c.radius_

/-- Circle::getName (Circle.cpp lines 28-30). -/
def getName (_ : Circle) : String := "Circle"

/-- Circle::getDescription (Circle.cpp lines 32-36): a formatted string
embedding the radius value. -/
def getDescription (c : Circle) : String :=
  "Circle with radius " ++ toString c.radius_

/-- Circle::getRadius (Circle.cpp lines 38-40). -/
def getRadius (c : Circle) : ℚ := c.radius_

/-- Circle::setRadius (Circle.cpp lines 42-45): validates first, and only
on success assigns the new radius.  The pair carries the state of the
object after the call together with the normal/exceptional outcome. -/
def setRadius (c : Circle) (radius : ℚ) : Circle × Except String Unit :=
  match validateRadius radius with
  | Except.error e => (c, Except.error e)
  | Except.ok _ => ({ radius_ := radius }, Except.ok ())

/-- Circle::getDiameter (Circle.cpp lines 47-49). -/
def getDiameter (c : Circle) : ℚ := 2 * c.radius_

/-- The states of a Circle object reachable during its lifetime: it comes
into being through a successful run of the constructor, and thereafter the
only mutating operation is setRadius, whose post-state is the first
component of the pair whether it succeeds or throws. -/
inductive Reachable : Circle → Prop where
  | constructed (r : ℚ) (c : Circle) :
      construct r = Except.ok c → Reachable c
  | mutated (c : Circle) (v : ℚ) :
      Reachable c → Reachable (setRadius c v).1

end Circle

/-- The Rectangle class state: the stored fields width_ and height_
(shapes/Rectangle.h lines 11-12). -/
structure Rectangle where
  width_ : ℚ
  height_ : ℚ
deriving Repr, DecidableEq

namespace Rectangle

/-- Modelled from the spec: Rectangle.cpp is not under src/ (only the
header shapes/Rectangle.h is).  Spec 4.3: construction accepts width and
height with no validation, so the constructor is a total function. -/
def construct (width height : ℚ) : Rectangle :=
  { width_ := width, height_ := height }

/-- Modelled from the spec: Rectangle.cpp is not under src/.  Spec 4.3:
area = width * height. -/
def area (r : Rectangle) : ℚ := r.width_ * r.height_

/-- Modelled from the spec: Rectangle.cpp is not under src/.  Spec 4.3:
perimeter = 2 * (width + height). -/
def perimeter (r : Rectangle) : ℚ := 2 * (r.width_ + r.height_)

/-- Modelled from the spec: Rectangle.cpp is not under src/.  Spec 4.3:
name = "Rectangle". -/
def getName (_ : Rectangle) : String := "Rectangle"

/-- Modelled from the spec: Rectangle.cpp is not under src/.  Spec 4.3:
the description is a formatted string embedding both dimensions. -/
def getDescription (r : Rectangle) : String :=
  "Rectangle " ++ toString r.width_ ++ " x " ++ toString r.height_

end Rectangle

/-- A heterogeneous Shape instance held through the abstract base class
Shape (shapes/Shape.h): virtual dispatch becomes a sum over the two
concrete variants. -/
inductive ShapeInst where
  | circle : Circle → ShapeInst
  | rect : Rectangle → ShapeInst
deriving Repr, DecidableEq

namespace ShapeInst

/-- Virtual dispatch of Shape::area. -/
def area : ShapeInst → ℚ
  | circle c => c.area
  | rect r => r.area

/-- Virtual dispatch of Shape::perimeter. -/
def perimeter : ShapeInst → ℚ
  | circle c => c.perimeter
  | rect r => r.perimeter

/-- Virtual dispatch of Shape::getName. -/
def getName : ShapeInst → String
  | circle c => c.getName
  | rect r => r.getName

/-- Virtual dispatch of Shape::getDescription. -/
def getDescription : ShapeInst → String
  | circle c => c.getDescription
  | rect r => r.getDescription

/-- A call of the const member function area in state-passing style: the
method body (return PI * radius_ * radius_, and the Rectangle analogue)
reads the stored fields and assigns nothing, so the post-state is the
pre-state. -/
def areaCall (s : ShapeInst) : ℚ × ShapeInst := (s.area, s)

/-- A call of the const member function perimeter in state-passing
style. -/
def perimeterCall (s : ShapeInst) : ℚ × ShapeInst := (s.perimeter, s)

/-- A call of the const member function getDescription in state-passing
style. -/
def descriptionCall (s : ShapeInst) : String × ShapeInst :=
  (s.getDescription, s)

/-- The results of n successive calls of area on the same object, each
call starting from the state the previous call left behind. -/
def areaCallSeq : ShapeInst → Nat → List ℚ
  | _, 0 => []
  | s, n + 1 =>
    let p := areaCall s
    p.1 :: areaCallSeq p.2 n

/-- The results of n successive calls of perimeter on the same object. -/
def perimeterCallSeq : ShapeInst → Nat → List ℚ
  | _, 0 => []
  | s, n + 1 =>
    let p := perimeterCall s
    p.1 :: perimeterCallSeq p.2 n

/-- The results of n successive calls of getDescription on the same
object. -/
def descriptionCallSeq : ShapeInst → Nat → List String
  | _, 0 => []
  | s, n + 1 =>
    let p := descriptionCall s
    p.1 :: descriptionCallSeq p.2 n

end ShapeInst

/-- One block printed by printShapeDetails (main.cpp lines 13-19): name,
area, perimeter and description of one shape, in display order. -/
structure ReportEntry where
  name : String
  area : ℚ
  perimeter : ℚ
  descr : String
deriving Repr, DecidableEq

/-- The observable outcome of one run of the driver: process exit code,
the per-shape report blocks on standard output in insertion order, the
total-area line (none when it is never reached), and the message written
to standard error by the catch handler (none on success). -/
structure RunResult where
  exitCode : Nat
  entries : List ReportEntry
  total : Option ℚ
  errMsg : Option String
deriving Repr, DecidableEq

/-- printShapeDetails (main.cpp lines 13-19) as the report block it
emits. -/
def printShapeDetails (s : ShapeInst) : ReportEntry :=
  { name := s.getName, area := s.area, perimeter := s.perimeter,
    descr := s.getDescription }

/-- The try-block of main (main.cpp lines 29-49), parametrised by the
constructor arguments of the three shapes (the fixed demonstration run
uses 5.0, 4.0 x 6.0, 3.0).  The shapes are constructed in program order;
the first constructor that throws transfers control to the catch handler,
which writes "Error: " and the message to standard error and returns 1;
otherwise each shape is printed in insertion order, the areas are summed
left to right from 0.0, the total line is printed and main returns 0. -/
def mainRun (c1 w h c2 : ℚ) : RunResult :=
  match Circle.construct c1 with
  | Except.error e =>
    { exitCode := 1, entries := [], total := none,
      errMsg := some ("Error: " ++ e) }
  | Except.ok circ1 =>
    let r := Rectangle.construct w h
    match Circle.construct c2 with
    | Except.error e =>
      { exitCode := 1, entries := [], total := none,
        errMsg := some ("Error: " ++ e) }
    | Except.ok circ2 =>
      let shapes : List ShapeInst :=
        [ShapeInst.circle circ1, ShapeInst.rect r, ShapeInst.circle circ2]
      let entries := shapes.map printShapeDetails
      let totalArea := shapes.foldl (fun acc s => acc + s.area) 0
      { exitCode := 0, entries := entries, total := some totalArea,
        errMsg := none }

/-- The fixed demonstration run of main.cpp lines 30-32: Circle(5.0),
Rectangle(4.0, 6.0), Circle(3.0). -/
def mainFixed : RunResult := mainRun 5 4 6 3

/-- Helper: a successful run of the Circle constructor stores exactly the
requested radius. -/
theorem construct_ok_radius {r : ℚ} {c : Circle}
    (h : Circle.construct r = Except.ok c) : c.radius_ = r := by
  by_cases hle : r ≤ 0
  · simp [Circle.construct, Circle.validateRadius, hle] at h
  · simp [Circle.construct, Circle.validateRadius, hle] at h
    subst h
    rfl

/-- Helper: a successful run of the Circle constructor only accepts a
strictly positive radius. -/
theorem construct_ok_pos {r : ℚ} {c : Circle}
    (h : Circle.construct r = Except.ok c) : 0 < c.radius_ := by
  by_cases hle : r ≤ 0
  · simp [Circle.construct, Circle.validateRadius, hle] at h
  · rw [construct_ok_radius h]
    exact not_le.mp hle

/-- Claim C1: for every radius at most zero (zero and negative included),
constructing a Circle fails with the invalid-argument error and no Circle
instance is produced; for every radius greater than zero, construction
succeeds and stores that radius. -/
theorem circle_construct_validation (r : ℚ) :
    (r ≤ 0 → Circle.construct r = Except.error "Radius must be positive") ∧
    (0 < r → ∃ c : Circle, Circle.construct r = Except.ok c ∧
      c.radius_ = r) := by
  constructor
  · intro h
    simp [Circle.construct, Circle.validateRadius, h]
  · intro h
    exact ⟨⟨r⟩, by simp [Circle.construct, Circle.validateRadius,
      not_le.mpr h], rfl⟩

/-- Witness for C1 at the concrete radii -1 (failure branch) and 2
(success branch). -/
theorem circle_construct_validation_witness :
    Circle.construct (-1) = Except.error "Radius must be positive" ∧
    (∃ c : Circle, Circle.construct 2 = Except.ok c ∧ c.radius_ = 2) :=
  ⟨(circle_construct_validation (-1)).1 (by norm_num),
   (circle_construct_validation 2).2 (by norm_num)⟩

/-- Claim C2: every validly constructed Circle with radius r has
area = PI * r^2, perimeter = 2 * PI * r and diameter = 2 * r. -/
theorem circle_geometry (r : ℚ) (c : Circle)
    (h : Circle.construct r = Except.ok c) :
    Circle.area c = Circle.PI * r ^ 2 ∧
    Circle.perimeter c = 2 * Circle.PI * r ∧
    Circle.getDiameter c = 2 * r := by
  have hr := construct_ok_radius h
  refine ⟨?_, ?_, ?_⟩
  · show Circle.PI * c.radius_ * c.radius_ = Circle.PI * r ^ 2
    rw [hr]; ring
  · show 2 * Circle.PI * c.radius_ = 2 * Circle.PI * r
    rw [hr]
  · show 2 * c.radius_ = 2 * r
    rw [hr]

/-- Witness for C2 at the concrete radius 2. -/
theorem circle_geometry_witness :
    Circle.area ⟨2⟩ = Circle.PI * 2 ^ 2 ∧
    Circle.perimeter ⟨2⟩ = 2 * Circle.PI * 2 ∧
    Circle.getDiameter ⟨2⟩ = 2 * 2 :=
  circle_geometry 2 ⟨2⟩
    (by norm_num [Circle.construct, Circle.validateRadius])

/-- Claim C3: for every width and height of any sign, Rectangle
construction succeeds with no validation (the constructor is a total
function) and the instance has area = width * height and
perimeter = 2 * (width + height). -/
theorem rectangle_behavior (w h : ℚ) :
    Rectangle.area (Rectangle.construct w h) = w * h ∧
    Rectangle.perimeter (Rectangle.construct w h) = 2 * (w + h) :=
  ⟨rfl, rfl⟩

/-- Claim C4: on a Circle whose current radius is positive, setRadius with
a non-positive value throws the invalid-argument error and leaves the
stored radius unchanged; setRadius with a positive value succeeds and
commits the new radius. -/
theorem setRadius_spec (c : Circle) (v : ℚ) (_h0 : 0 < c.radius_) :
    (v ≤ 0 →
      (Circle.setRadius c v).2 = Except.error "Radius must be positive" ∧
      ((Circle.setRadius c v).1).radius_ = c.radius_) ∧
    (0 < v →
      (Circle.setRadius c v).2 = Except.ok () ∧
      ((Circle.setRadius c v).1).radius_ = v) := by
  constructor
  · intro h
    simp [Circle.setRadius, Circle.validateRadius, h]
  · intro h
    simp [Circle.setRadius, Circle.validateRadius, not_le.mpr h]

/-- Witness for C4 on the Circle of radius 5, with the failing new value
-2 and the succeeding new value 7. -/
theorem setRadius_spec_witness :
    ((Circle.setRadius ⟨5⟩ (-2)).2 =
        Except.error "Radius must be positive" ∧
      ((Circle.setRadius ⟨5⟩ (-2)).1).radius_ = (⟨5⟩ : Circle).radius_) ∧
    ((Circle.setRadius ⟨5⟩ 7).2 = Except.ok () ∧
      ((Circle.setRadius ⟨5⟩ 7).1).radius_ = 7) :=
  ⟨(setRadius_spec ⟨5⟩ (-2) (by norm_num)).1 (by norm_num),
   (setRadius_spec ⟨5⟩ 7 (by norm_num)).2 (by norm_num)⟩

/-- Claim C5: every reachable state of a Circle instance (produced by a
successful constructor run followed by any sequence of setRadius calls,
succeeding or failing) satisfies the invariant radius > 0. -/
theorem radius_invariant (c : Circle) (h : Circle.Reachable c) :
    0 < c.radius_ := by
  induction h with
  | constructed r c hc => exact construct_ok_pos hc
  | mutated c v _ ih =>
    by_cases hv : v ≤ 0
    · simpa [Circle.setRadius, Circle.validateRadius, hv] using ih
    · simpa [Circle.setRadius, Circle.validateRadius, hv] using
        not_le.mp hv

/-- Witness for C5: the Circle of radius 5, reachable by constructing with
radius 5 and then attempting the invalid mutation setRadius(-3). -/
theorem radius_invariant_witness :
    0 < ((Circle.setRadius ⟨5⟩ (-3)).1).radius_ :=
  radius_invariant (Circle.setRadius ⟨5⟩ (-3)).1
    (Circle.Reachable.mutated ⟨5⟩ (-3)
      (Circle.Reachable.constructed 5 ⟨5⟩
        (by norm_num [Circle.construct, Circle.validateRadius])))

/-- Claim C6: the driver exits with status 0 on success; when a shape
constructor in the demonstration sequence throws a validation error, it
exits with status 1, writes the prefixed error message to standard error,
and prints no total-area line. -/
theorem driver_exit_spec (c1 w h c2 : ℚ) :
    (∀ e, Circle.construct c1 = Except.error e →
      (mainRun c1 w h c2).exitCode = 1 ∧
      (mainRun c1 w h c2).errMsg = some ("Error: " ++ e) ∧
      (mainRun c1 w h c2).total = none) ∧
    (∀ d1 e, Circle.construct c1 = Except.ok d1 →
      Circle.construct c2 = Except.error e →
      (mainRun c1 w h c2).exitCode = 1 ∧
      (mainRun c1 w h c2).errMsg = some ("Error: " ++ e) ∧
      (mainRun c1 w h c2).total = none) ∧
    (∀ d1 d2, Circle.construct c1 = Except.ok d1 →
      Circle.construct c2 = Except.ok d2 →
      (mainRun c1 w h c2).exitCode = 0 ∧
      (mainRun c1 w h c2).errMsg = none ∧
      (∃ t, (mainRun c1 w h c2).total = some t)) := by
  refine ⟨?_, ?_, ?_⟩
  · intro e he
    simp [mainRun, he]
  · intro d1 e h1 h2
    simp [mainRun, h1, h2]
  · intro d1 d2 h1 h2
    simp [mainRun, h1, h2]

/-- Witness for C6: the failing run Circle(-1.0) of end-to-end scenario 2,
and the succeeding fixed run Circle(5.0), Rectangle(4.0, 6.0),
Circle(3.0). -/
theorem driver_exit_spec_witness :
    ((mainRun (-1) 4 6 3).exitCode = 1 ∧
      (mainRun (-1) 4 6 3).errMsg =
        some ("Error: " ++ "Radius must be positive") ∧
      (mainRun (-1) 4 6 3).total = none) ∧
    ((mainRun 5 4 6 3).exitCode = 0 ∧
      (mainRun 5 4 6 3).errMsg = none ∧
      (∃ t, (mainRun 5 4 6 3).total = some t)) :=
  ⟨(driver_exit_spec (-1) 4 6 3).1 "Radius must be positive"
      (by norm_num [Circle.construct, Circle.validateRadius]),
   (driver_exit_spec 5 4 6 3).2.2 ⟨5⟩ ⟨3⟩
      (by norm_num [Circle.construct, Circle.validateRadius])
      (by norm_num [Circle.construct, Circle.validateRadius])⟩

/-- Claim C7: the fixed demonstration run Circle(5.0), Rectangle(4.0, 6.0),
Circle(3.0) reports the shapes in insertion order with areas within
floating tolerance of 78.5398, 24.0 and 28.2743, and prints a total area
within tolerance of 130.8142. -/
theorem demo_report_spec :
    mainFixed.exitCode = 0 ∧
    mainFixed.entries.map ReportEntry.name =
      ["Circle", "Rectangle", "Circle"] ∧
    (∃ a1 a2 a3, mainFixed.entries.map ReportEntry.area = [a1, a2, a3] ∧
      |a1 - 78.5398| < 1 / 10000 ∧ a2 = 24 ∧
      |a3 - 28.2743| < 1 / 10000) ∧
    (∃ t, mainFixed.total = some t ∧ |t - 130.8142| < 1 / 10000) := by
  refine ⟨by decide, by decide,
    ⟨Circle.PI * 5 * 5, 24, Circle.PI * 3 * 3, ?_, ?_, rfl, ?_⟩,
    ⟨0 + Circle.PI * 5 * 5 + 24 + Circle.PI * 3 * 3, ?_, ?_⟩⟩
  · norm_num [mainFixed, mainRun, Circle.construct, Circle.validateRadius,
      printShapeDetails, ShapeInst.area, Circle.area, Rectangle.area,
      Rectangle.construct, Circle.PI]
  · rw [abs_lt]
    norm_num [Circle.PI]
  · rw [abs_lt]
    norm_num [Circle.PI]
  · norm_num [mainFixed, mainRun, Circle.construct, Circle.validateRadius,
      ShapeInst.area, Circle.area, Rectangle.area, Rectangle.construct,
      Circle.PI]
  · rw [abs_lt]
    norm_num [Circle.PI]

/-- Claim C8: on any unmutated shape instance, every sequence of repeated
calls of area, perimeter and getDescription returns the identical value at
every call, and each such const call leaves the instance unchanged. -/
theorem observer_idempotent (s : ShapeInst) (n : Nat) :
    ShapeInst.areaCallSeq s n = List.replicate n s.area ∧
    ShapeInst.perimeterCallSeq s n = List.replicate n s.perimeter ∧
    ShapeInst.descriptionCallSeq s n =
      List.replicate n s.getDescription ∧
    (ShapeInst.areaCall s).2 = s ∧
    (ShapeInst.perimeterCall s).2 = s ∧
    (ShapeInst.descriptionCall s).2 = s := by
  induction n with
  | zero => exact ⟨rfl, rfl, rfl, rfl, rfl, rfl⟩
  | succ n ih =>
    refine ⟨?_, ?_, ?_, rfl, rfl, rfl⟩ <;>
      simp [ShapeInst.areaCallSeq, ShapeInst.perimeterCallSeq,
        ShapeInst.descriptionCallSeq, ShapeInst.areaCall,
        ShapeInst.perimeterCall, ShapeInst.descriptionCall,
        List.replicate, ih.1, ih.2.1, ih.2.2.1]

/-- Claim C9: the math helper square(x) returns x * x and cube(x) returns
x * x * x for every x, and the module provides the constants PI and E with
their source literal values; the helpers take no state. -/
theorem mathUtils_helpers (x : ℚ) :
    MathUtils.square x = x * x ∧
    MathUtils.cube x = x * x * x ∧
    MathUtils.PI = 3.14159265358979323846 ∧
    MathUtils.E = 2.71828182845904523536 :=
  ⟨rfl, rfl, rfl, rfl⟩

/-- Claim C10: the private Circle::PI constant equals MathUtils::PI (both
are the same literal), so every validly constructed Circle of radius r has
area equal to MathUtils::PI * MathUtils::square(r) and perimeter equal to
2 * MathUtils::PI * r. -/
theorem pi_refinement (r : ℚ) (c : Circle)
    (h : Circle.construct r = Except.ok c) :
    Circle.PI = MathUtils.PI ∧
    Circle.area c = MathUtils.PI * MathUtils.square r ∧
    Circle.perimeter c = 2 * MathUtils.PI * r := by
  have hr := construct_ok_radius h
  refine ⟨rfl, ?_, ?_⟩
  · show Circle.PI * c.radius_ * c.radius_ =
      MathUtils.PI * MathUtils.square r
    rw [hr, MathUtils.square, show Circle.PI = MathUtils.PI from rfl,
      mul_assoc]
  · show 2 * Circle.PI * c.radius_ = 2 * MathUtils.PI * r
    rw [hr, show Circle.PI = MathUtils.PI from rfl]

/-- Witness for C10 at the concrete radius 3. -/
theorem pi_refinement_witness :
    Circle.PI = MathUtils.PI ∧
    Circle.area ⟨3⟩ = MathUtils.PI * MathUtils.square 3 ∧
    Circle.perimeter ⟨3⟩ = 2 * MathUtils.PI * 3 :=
  pi_refinement 3 ⟨3⟩
    (by norm_num [Circle.construct, Circle.validateRadius])

end ShapeCalc
